import Mathlib

/-!
Shallow embedding of the HoganTechBytes/Data_Analysis repository:
the Olist monthly-trend QA/insight pipeline
(`src/olist/python/scripts/01_monthly_trend_pack.py` and
`src/olist/python/scripts/02_monthly_trend_charts.py`) and the
audio-analytics slice reader
(`src/audio-analytics/python/scripts/01_read_one_slice.py`).

Tabular results (pandas DataFrames) are modelled as lists of rows of named
scalar cells; fallible code (Python `raise`) returns `Except`; console
warnings and the shared `qa_notes` / `insights` accumulators are modelled as
explicit lists threaded through the functions.  Floating-point columns are
modelled as exact rationals.
-/

namespace DataAnalysis

/-- Scalar cell of a tabular result: integer, numeric (float modelled as an
exact rational), string, parsed month (a pandas Timestamp for the first day of
a month), or null (NaN/NaT/None). -/
inductive Val where
  | intV : Int → Val
  | ratV : ℚ → Val
  | strV : String → Val
  | dateV : Nat → Nat → Val
  | null : Val
deriving DecidableEq, Repr

/-- A row of a tabular result: association list from column name to cell. -/
abbrev Row := List (String × Val)

/-- Cell lookup by column name; an absent column reads as null.  (In pandas an
absent column raises `KeyError`; the pipeline guards every access with the
required-columns check, and all claims use present columns.) -/
def Row.getV (r : Row) (c : String) : Val := (r.lookup c).getD Val.null

/-- Set a cell by column name, mirroring `df[col] = ...`: replaces the cell if
the column exists, otherwise appends the new column at the end. -/
def Row.setV (r : Row) (c : String) (v : Val) : Row :=
  if (r.lookup c).isSome then
    r.map (fun p => if p.1 = c then (c, v) else p)
  else r ++ [(c, v)]

/-- Tabular Result: named columns plus a list of rows (pandas DataFrame). -/
structure Df where
  columns : List String
  rows : List Row
deriving DecidableEq, Repr

/-- Null test on a cell, mirroring `pd.isna`. -/
def Val.isna : Val → Bool
  | .null => true
  | _ => false

/-- Comparison `cell >= n` for a natural threshold, mirroring a pandas numeric
comparison: NaN (and any non-numeric cell) compares false. -/
def Val.geNat (v : Val) (n : Nat) : Bool :=
  match v with
  | .intV i => (n : Int) ≤ i
  | .ratV q => (n : ℚ) ≤ q
  | _ => false

/-- Negativity test `cell < 0`, mirroring a pandas numeric comparison:
NaN (and any non-numeric cell) compares false. -/
def Val.isNeg : Val → Bool
  | .intV i => i < 0
  | .ratV q => q < 0
  | _ => false

/-- Numeric reading of a cell, used by the review pivot. -/
def Val.toRat? : Val → Option ℚ
  | .intV i => some (i : ℚ)
  | .ratV q => some q
  | _ => none

/-- String rendering of a cell, mirroring `astype(str)` on a month column:
strings render as themselves, integers in decimal, nulls as `nan`. -/
def Val.pyStr : Val → String
  | .intV i => toString i
  | .ratV q => toString q
  | .strV s => s
  | .dateV y m => toString y ++ "-" ++ toString m
  | .null => "nan"

/-- Python `repr` of a list of strings, as interpolated into QA messages. -/
def pyListRepr (xs : List String) : String :=
  let quoted := xs.map (fun s => "'" ++ s ++ "'")
  let sep : String := ", "
  "[" ++ String.intercalate sep quoted ++ "]"

/-- Decimal digits of a natural number grouped in threes, mirroring Python's
thousands-separator format `:,`. -/
def fmtComma (n : Nat) : String :=
  let rec go : Nat → List Char → List Char
    | _, [] => []
    | k, c :: cs =>
      c :: (if (k + 1) % 3 = 0 && !cs.isEmpty then ',' :: go (k + 1) cs else go (k + 1) cs)
  ⟨(go 0 (toString n).data.reverse).reverse⟩

/-- Parsed year-month key (a pandas Timestamp pinned to day 1). -/
structure Ym where
  year : Nat
  month : Nat
deriving DecidableEq, Repr

/-- Gregorian leap-year test. -/
def isLeap (y : Nat) : Bool := y % 4 == 0 && (y % 100 != 0 || y % 400 == 0)

/-- Days in the months strictly before month `m` of a year with the given
leap flag. -/
def daysBeforeMonth (leap : Bool) (m : Nat) : Nat :=
  [0, 31, 59, 90, 120, 151, 181, 212, 243, 273, 304, 334].getD (m - 1) 0 +
    (if leap && decide (2 < m) then 1 else 0)

/-- Day number of the first day of the month, counted from a fixed epoch, so
that differences of `rata` values are elapsed days between month starts
(mirrors subtracting two pandas Timestamps and taking `.days`). -/
def Ym.rata (ym : Ym) : Nat :=
  365 * (ym.year - 1) + ((ym.year - 1) / 4 - (ym.year - 1) / 100 + (ym.year - 1) / 400) +
    daysBeforeMonth (isLeap ym.year) ym.month

/-- Chronological comparison of parsed months. -/
def Ym.le (a b : Ym) : Bool := a.rata ≤ b.rata

/-- Chronological order on parsed months as a relation, for sorting. -/
def ymLe (a b : Ym) : Prop := a.le b = true

instance : DecidableRel ymLe := fun _ _ => instDecidableEqBool _ _

instance : IsTotal Ym ymLe :=
  ⟨fun a b => by
    simp only [ymLe, Ym.le, decide_eq_true_eq]
    exact Nat.le_total _ _⟩

instance : IsTrans Ym ymLe :=
  ⟨fun a b c => by
    simp only [ymLe, Ym.le, decide_eq_true_eq]
    exact Nat.le_trans⟩

/-- Split a character list on a separator character (the kernel-computable
core of `str.split('-')`). -/
def splitChar (sep : Char) (cs : List Char) : List (List Char) :=
  cs.foldr
    (fun c acc =>
      match acc with
      | [] => [[c]]
      | g :: gs => if c = sep then [] :: g :: gs else (c :: g) :: gs)
    [[]]

/-- Decimal value of a digit list. -/
def digitsToNat (cs : List Char) : Nat :=
  cs.foldl (fun n c => n * 10 + (c.toNat - 48)) 0

/-- Parse helper: a year part and a month part, both all digits, month in
1..12. -/
def mkYm? (y m : List Char) : Option Ym :=
  if !y.isEmpty && y.all Char.isDigit && !m.isEmpty && m.all Char.isDigit then
    let mn := digitsToNat m
    if 1 ≤ mn && mn ≤ 12 then some ⟨digitsToNat y, mn⟩ else none
  else none

/-- Model of `pd.to_datetime(s + '-01', errors='coerce')` as applied to a
year-month column by `add_month` and `qa_month_continuity`: the value string
gets a dummy day appended and is parsed as a date, unparseable values
coercing to null (NaT).  Accepted shapes of the original value: `YYYY-MM`
(two dash-separated digit groups, month 1..12) and a bare digit year
(`'2021' + '-01'` parses as January 2021). -/
def parseYm (s : String) : Option Ym :=
  let dummy : String := "-01"
  match splitChar '-' (s ++ dummy).data with
  | [y, m] => mkYm? y m
  | [y, m, d] => if d = ['0', '1'] then mkYm? y m else none
  | _ => none

/-- Render a parsed month as `date()` does in the gap warning: `YYYY-MM-01`. -/
def ymdStr (ym : Ym) : String :=
  let pad2 := fun (n : Nat) => if n < 10 then "0" ++ toString n else toString n
  toString ym.year ++ "-" ++ pad2 ym.month ++ "-01"

/-! ## QA helpers of `01_monthly_trend_pack.py` -/

/-- Model of `qa_required_columns` (01_monthly_trend_pack.py, lines 147-166):
raises `ValueError` iff the list of declared columns absent from the frame is
nonempty; otherwise returns normally and emits nothing. -/
def qa_required_columns (df : Df) (required : List String) (label : String) :
    Except String Unit :=
  let missing := required.filter (fun c => !df.columns.contains c)
  if missing.isEmpty then Except.ok ()
  else Except.error ("[QA] " ++ label ++ ": missing required columns: " ++ pyListRepr missing)

/-- Model of `qa_no_nulls` (lines 169-187): per declared column, a soft
warning with the null count when it is nonzero; console warnings are modelled
as the returned list. -/
def qa_no_nulls (df : Df) (cols : List String) (label : String) : List String :=
  cols.filterMap (fun c =>
    let n := df.rows.countP (fun r => (r.getV c).isna)
    if n ≠ 0 then
      some ("[QA WARNING] " ++ label ++ ": column '" ++ c ++ "' has " ++
        fmtComma n ++ " NULLs")
    else none)

/-- Duplicate-row flags of `df.duplicated(subset=keys)` (keep='first'):
a row is flagged iff its key tuple already occurred among the rows seen so
far. -/
def duplicatedFlags (seen : List (List Val)) : List (List Val) → List Bool
  | [] => []
  | t :: ts => seen.contains t :: duplicatedFlags (t :: seen) ts

/-- Key-tuple projection of a row onto the declared key columns. -/
def keyTuple (r : Row) (keys : List String) : List Val := keys.map (fun k => r.getV k)

/-- Model of `qa_unique_month` (lines 190-217): counts rows flagged by
`duplicated` over the month column plus any extra keys and emits one soft
warning with the count and the key list when the count is nonzero. -/
def qa_unique_month (df : Df) (month_col : String) (label : String)
    (extra_keys : List String) : List String :=
  let keys := month_col :: extra_keys
  let dup := (duplicatedFlags [] (df.rows.map (fun r => keyTuple r keys))).count true
  if dup ≠ 0 then
    ["[QA WARNING] " ++ label ++ ": found " ++ fmtComma dup ++
      " duplicate rows by keys=" ++ pyListRepr keys]
  else []

/-- Remove consecutive duplicates of a (sorted) list, mirroring
`drop_duplicates` on a sorted month series. -/
def dedupSorted : List Ym → List Ym
  | [] => []
  | [a] => [a]
  | a :: b :: t => if a = b then dedupSorted (b :: t) else a :: dedupSorted (b :: t)

/-- Distinct parsed months of a column, sorted ascending: the value of
`pd.to_datetime(df[col].astype(str) + '-01', errors='coerce').sort_values()
.dropna().drop_duplicates()`.  (Sorting a series of already-distinct parse
results: any sorting algorithm yields the same ascending list.) -/
def sortedMonths (df : Df) (month_col : String) : List Ym :=
  dedupSorted
    ((df.rows.filterMap (fun r => parseYm (r.getV month_col).pyStr)).insertionSort ymLe)

/-- Model of `qa_month_continuity` (lines 220-250): parses the month column,
sorts and deduplicates it, returns early with no findings when fewer than two
distinct months parse, and otherwise emits one gap finding per consecutive
pair of distinct months more than 35 days apart. -/
def qa_month_continuity (df : Df) (month_col : String) (label : String) : List String :=
  let months := sortedMonths df month_col
  if months.length < 2 then []
  else
    (months.zip months.tail).filterMap (fun p =>
      let d := p.2.rata - p.1.rata
      if 35 < d then
        some ("[QA WARNING] " ++ label ++ ": gap before " ++ ymdStr p.2 ++ " = " ++
          toString d ++ " days")
      else none)

/-- Model of `qa_non_negative` (lines 253-269): when the column is present,
counts strictly negative values and emits one soft warning with the count
when it is nonzero; a no-op when the column is absent. -/
def qa_non_negative (df : Df) (col : String) (label : String) : List String :=
  if df.columns.contains col then
    let neg := df.rows.countP (fun r => (r.getV col).isNeg)
    if neg ≠ 0 then
      ["[QA WARNING] " ++ label ++ ": '" ++ col ++ "' has " ++ fmtComma neg ++
        " negative values"]
    else []
  else []

/-! ## Month normalisation and chart stages of `02_monthly_trend_charts.py` -/

/-- Parsed temporal key of a row: the cell of the added `month` column when it
parsed, none when it is null (NaT). -/
def rowKey (r : Row) : Option Ym :=
  match r.getV "month" with
  | .dateV y m => some ⟨y, m⟩
  | _ => none

/-- Row order used by `sort_values('month', kind='mergesort')`: ascending by
parsed key with null keys (NaT) sorted last (`na_position='last'`). -/
def keyLe : Option Ym → Option Ym → Bool
  | some a, some b => a.le b
  | some _, none => true
  | none, some _ => false
  | none, none => true

/-- Row comparison by parsed temporal key, for the stable sort of
`add_month`. -/
def rowLe (a b : Row) : Prop := keyLe (rowKey a) (rowKey b) = true

instance : DecidableRel rowLe := fun _ _ => instDecidableEqBool _ _

instance : IsTotal Row rowLe :=
  ⟨fun a b => by
    unfold rowLe
    cases ha : rowKey a <;> cases hb : rowKey b <;>
      simp [keyLe, Ym.le, Nat.le_total]⟩

instance : IsTrans Row rowLe :=
  ⟨fun a b c => by
    unfold rowLe
    cases rowKey a <;> cases rowKey b <;> cases rowKey c <;> simp [keyLe, Ym.le]
    exact Nat.le_trans⟩

/-- Warning text of `add_month` for a nonzero unparsed count. -/
def addMonthMsg (col : String) (bad : Nat) : String :=
  "[QA WARNING] add_month: '" ++ col ++ "' produced " ++ fmtComma bad ++
    " unparsed month values"

/-- Copy of the frame's rows with the parsed `month` column assigned:
`out['month'] = pd.to_datetime(out[col].astype(str) + '-01',
errors='coerce')`. -/
def monthKeyed (df : Df) (col : String) : List Row :=
  df.rows.map (fun r =>
    r.setV "month"
      (match parseYm (r.getV col).pyStr with
       | some ym => Val.dateV ym.year ym.month
       | none => Val.null))

/-- Model of `add_month` (02_monthly_trend_charts.py, lines 64-100): returns a
copy of the frame with a parsed `month` column added (null for unparseable
values), stably sorted ascending by that column with nulls last, together
with the `qa_notes` accumulator extended by one soft warning exactly when the
unparsed count is nonzero.  No row is dropped.  (The source's
`kind='mergesort'` requests a stable sort; the stable sort of a list under a
total preorder is unique, so the stable `insertionSort` computes the same
row order.) -/
def add_month (df : Df) (col : String) (qa_notes : List String) : Df × List String :=
  let keyedRows := monthKeyed df col
  let bad := keyedRows.countP (fun r => (r.getV "month").isna)
  let qa' := if bad ≠ 0 then qa_notes ++ [addMonthMsg col bad] else qa_notes
  let sorted := keyedRows.insertionSort rowLe
  let cols' := if df.columns.contains "month" then df.columns else df.columns ++ ["month"]
  (⟨cols', sorted⟩, qa')

/-- Missing-columns error text of the chart stages. -/
def chartMissingMsg (frame : String) (missing : List String) : String :=
  frame ++ " missing required columns: " ++ pyListRepr missing

/-- Static insight of the revenue chart (lines 138-142). -/
def revenueInsight : String :=
  "[INSIGHT][revenue] Revenue is the north-star trend line. Interpret month-to-month " ++
    "changes alongside order volume and delivered rate to separate demand shifts from " ++
    "fulfillment issues."

/-- Model of `chart_revenue_per_month` (lines 103-145): hard-fails when a
required column is absent; otherwise (rendering excluded) appends one static
insight when the frame is nonempty. -/
def chart_revenue_per_month (df_rev : Df) (insights : List String) :
    Except String (List String) :=
  let required := ["month", "revenue"]
  let missing := required.filter (fun c => !df_rev.columns.contains c)
  if !missing.isEmpty then Except.error (chartMissingMsg "df_rev" missing)
  else Except.ok (if !df_rev.rows.isEmpty then insights ++ [revenueInsight] else insights)

/-- Drop note of the orders chart for a nonzero dropped-row count. -/
def ordersDropMsg (dropped : Nat) : String :=
  "[QA NOTE] orders chart: dropped " ++ toString dropped ++
    " sparse month rows (total_orders < 100)."

/-- Static insight of the orders chart (lines 210-213). -/
def ordersInsight : String :=
  "[INSIGHT][orders] If order volume holds steady but delivered rate drops, " ++
    "the story is likely operational (fulfillment/logistics) rather than demand."

/-- Model of `chart_orders_and_delivery_rate` (lines 148-216): hard-fails when
a required column is absent; otherwise filters to rows with
`total_orders >= 100`, appends a drop note exactly when the dropped count is
nonzero, appends one static insight when the filtered frame is nonempty, and
returns the filtered copy with the two accumulators. -/
def chart_orders_and_delivery_rate (df_orders : Df) (qa_notes insights : List String) :
    Except String (Df × List String × List String) :=
  let required := ["month", "total_orders", "delivered_rate_pct"]
  let missing := required.filter (fun c => !df_orders.columns.contains c)
  if !missing.isEmpty then Except.error (chartMissingMsg "df_orders" missing)
  else
    let df := { df_orders with rows := df_orders.rows.filter (fun r => (r.getV "total_orders").geNat 100) }
    let dropped := df_orders.rows.length - df.rows.length
    let qa' := if dropped ≠ 0 then qa_notes ++ [ordersDropMsg dropped] else qa_notes
    let ins' := if !df.rows.isEmpty then insights ++ [ordersInsight] else insights
    Except.ok (df, qa', ins')

/-- Drop note of the late-delivery chart for a nonzero dropped-row count. -/
def lateDropMsg (dropped : Nat) : String :=
  "[QA NOTE] late delivery chart: dropped " ++ toString dropped ++
    " sparse month rows (delivered_orders < 100)."

/-- Static insight of the late-delivery chart (lines 272-276). -/
def lateInsight : String :=
  "[INSIGHT][late] Late delivery rate is a controllable experience metric. " ++
    "Sustained increases often precede weaker reviews and repeat-purchase risk, " ++
    "especially if concentrated in key sellers/categories."

/-- Model of `chart_late_delivery_rate` (lines 219-279): hard-fails when a
required column is absent; otherwise filters to rows with
`delivered_orders >= 100`, appends a drop note exactly when the dropped count
is nonzero, appends one static insight when the filtered frame is nonempty,
and returns the filtered copy with the two accumulators. -/
def chart_late_delivery_rate (df_late : Df) (qa_notes insights : List String) :
    Except String (Df × List String × List String) :=
  let required := ["month", "delivered_orders", "late_delivery_rate_pct"]
  let missing := required.filter (fun c => !df_late.columns.contains c)
  if !missing.isEmpty then Except.error (chartMissingMsg "df_late" missing)
  else
    let df := { df_late with rows := df_late.rows.filter (fun r => (r.getV "delivered_orders").geNat 100) }
    let dropped := df_late.rows.length - df.rows.length
    let qa' := if dropped ≠ 0 then qa_notes ++ [lateDropMsg dropped] else qa_notes
    let ins' := if !df.rows.isEmpty then insights ++ [lateInsight] else insights
    Except.ok (df, qa', ins')

/-! ## Review-score pivot and insight stage -/

/-- Round a rational to the nearest integer, ties to even, as Python's fixed
precision float formatting does. -/
def roundHalfEven (q : ℚ) : ℤ :=
  let f := Rat.floor q
  let r := q - (f : ℚ)
  if r < 1/2 then f else if 1/2 < r then f + 1 else if f % 2 = 0 then f else f + 1

/-- Digits of a two-decimal fraction part, zero-padded. -/
def pad2 (r : Nat) : String := (if r < 10 then "0" else "") ++ toString r

/-- Fixed two-decimal rendering of a rational, mirroring Python `:.2f`. -/
def fmt2 (q : ℚ) : String :=
  let n := roundHalfEven (q * 100)
  let core := fun (m : Nat) => toString (m / 100) ++ "." ++ pad2 (m % 100)
  if n < 0 then "-" ++ core n.natAbs else core n.toNat

/-- Row of the flattened review pivot (lines 311-329): for one month index,
the `review_count` and `avg_review_score` cells of the on-time (`_late_0`)
and late (`_late_1`) groups; a cell is none when it is NaN (group absent for
that month or source cell non-numeric). -/
structure PivotRow where
  month : Val
  rc0 : Option ℚ
  sc0 : Option ℚ
  rc1 : Option ℚ
  sc1 : Option ℚ
deriving DecidableEq, Repr

/-- Stability comparison `cell >= 30` on a pivot cell: NaN compares false. -/
def ge30 : Option ℚ → Bool
  | some q => 30 ≤ q
  | none => false

/-- Stability gate of the review chart (lines 332-340): keep only months
where both groups have `review_count >= 30`. -/
def reviewStabilityFilter (pivot : List PivotRow) : List PivotRow :=
  pivot.filter (fun r => ge30 r.rc0 && ge30 r.rc1)

/-- Warning text for an empty stability-filtered pivot (lines 373-376). -/
def stabilityMsg : String :=
  "[QA WARNING] review score chart: no months met stability threshold; " ++
    "skipping insight calc."

/-- Drop note of the review chart for a nonzero dropped-month count
(lines 344-347). -/
def reviewDropMsg (dropped : Nat) : String :=
  "[QA NOTE] review score chart: dropped " ++ toString dropped ++
    " months where either group had review_count < 30."

/-- Review-gap insight text (lines 389-394). -/
def reviewInsightMsg (avg mn mx : ℚ) (n : Nat) : String :=
  "[INSIGHT] Late deliveries score on average " ++ fmt2 avg ++
    " points lower than on-time deliveries (range " ++ fmt2 mn ++ "-" ++ fmt2 mx ++
    ", across " ++ toString n ++ " stable months; min_reviews=30)."

/-- Per-index review-score delta column `avg_review_score_late_0 -
avg_review_score_late_1`; a NaN operand yields NaN, and the pandas
mean/min/max aggregations skip NaN, so the aggregated deltas are the defined
differences. -/
def reviewDeltas (rows : List PivotRow) : List ℚ :=
  rows.filterMap (fun r =>
    match r.sc0, r.sc1 with
    | some a, some b => some (a - b)
    | _, _ => none)

/-- Minimum of a delta list (0 on the empty list, which the stage never
aggregates). -/
def listMin (ds : List ℚ) : ℚ :=
  match ds with
  | [] => 0
  | d :: t => t.foldl min d

/-- Maximum of a delta list (0 on the empty list, which the stage never
aggregates). -/
def listMax (ds : List ℚ) : ℚ :=
  match ds with
  | [] => 0
  | d :: t => t.foldl max d

/-- Model of the stability gate plus insight computation of
`chart_review_score_late_vs_on_time` (lines 331-399), operating on the
flattened pivot: appends a drop note exactly when the gate dropped a nonzero
number of months; on an empty gated pivot appends one soft warning and no
insight; otherwise appends exactly one insight carrying the two-decimal
mean, minimum and maximum of the per-index delta. -/
def chartReviewInsightStage (pivot : List PivotRow) (qa_notes insights : List String) :
    List String × List String :=
  let pivot2 := reviewStabilityFilter pivot
  let dropped := pivot.length - pivot2.length
  let qa' := if dropped ≠ 0 then qa_notes ++ [reviewDropMsg dropped] else qa_notes
  if pivot2.isEmpty then (qa' ++ [stabilityMsg], insights)
  else
    let ds := reviewDeltas pivot2
    let avg := ds.sum / (ds.length : ℚ)
    (qa', insights ++ [reviewInsightMsg avg (listMin ds) (listMax ds) pivot2.length])

/-- Model of `pivot_table(index='month', columns='is_late',
values=['avg_review_score', 'review_count'], aggfunc='first')` followed by
column flattening, `sort_index()` and the both-groups column check
(lines 311-329): rows with a null month index are dropped, the index is the
sorted distinct months, each cell holds the first matching row's numeric
value, and the stage hard-fails when either group is absent from the whole
frame (its flattened columns then do not exist). -/
def pivotReview (df : Df) : Except String (List PivotRow) :=
  let kept := df.rows.filter (fun r => !(r.getV "month").isna)
  let isGroup := fun (r : Row) (g : ℚ) => (r.getV "is_late").toRat? == some g
  let have0 := kept.any (fun r => isGroup r 0)
  let have1 := kept.any (fun r => isGroup r 1)
  let missing2 :=
    (if have0 then [] else ["avg_review_score_late_0"]) ++
    (if have1 then [] else ["avg_review_score_late_1"]) ++
    (if have0 then [] else ["review_count_late_0"]) ++
    (if have1 then [] else ["review_count_late_1"])
  if !missing2.isEmpty then
    Except.error ("review pivot missing required columns: " ++ pyListRepr missing2)
  else
    let months := dedupSorted
      ((kept.filterMap (fun r =>
        match r.getV "month" with
        | .dateV y m => some (⟨y, m⟩ : Ym)
        | _ => none)).insertionSort ymLe)
    let cell := fun (g : Ym) (lateTag : ℚ) (col : String) =>
      (kept.find? (fun r =>
        r.getV "month" == Val.dateV g.year g.month && isGroup r lateTag)).bind
        (fun r => (r.getV col).toRat?)
    Except.ok (months.map (fun g =>
      { month := Val.dateV g.year g.month
        rc0 := cell g 0 "review_count"
        sc0 := cell g 0 "avg_review_score"
        rc1 := cell g 1 "review_count"
        sc1 := cell g 1 "avg_review_score" }))

/-- Model of `chart_review_score_late_vs_on_time` (lines 282-399): hard-fails
when a required column is absent, pivots the frame into the two groups, and
runs the stability gate and insight computation. -/
def chart_review_score_late_vs_on_time (df_review : Df) (qa_notes insights : List String) :
    Except String (List String × List String) :=
  let required := ["month", "is_late", "review_count", "avg_review_score"]
  let missing := required.filter (fun c => !df_review.columns.contains c)
  if !missing.isEmpty then Except.error (chartMissingMsg "df_review" missing)
  else do
    let pivot ← pivotReview df_review
    Except.ok (chartReviewInsightStage pivot qa_notes insights)

/-! ## Report assembler (`build_trend_pack_report`, lines 419-562) -/

/-- Contiguous-sublist test on character lists. -/
def infixOfB (needle : List Char) : List Char → Bool
  | [] => needle.isEmpty
  | c :: t => needle.isPrefixOf (c :: t) || infixOfB needle t

/-- Python substring test `needle in hay`. -/
def substrB (needle hay : String) : Bool := infixOfB needle.data hay.data

/-- Bulleted rendering of a list section: each entry prefixed by `- `, or the
literal `- (none)` placeholder when the list is empty (the
`if xs: ... else lines.append('- (none)')` pattern of the source). -/
def bullets (xs : List String) : List String :=
  if xs.isEmpty then ["- (none)"] else xs.map (fun s => "- " ++ s)

/-- Model of the inner `_insights_for` (lines 482-483): the insights whose
text contains the bracketed topic tag as a substring. -/
def insights_for (insights : List String) (tag : String) : List String :=
  if insights.isEmpty then []
  else insights.filter (fun i => substrB ("[" ++ tag ++ "]") i)

/-- Chart-04 insight selection (lines 541-544): insights containing
`[INSIGHT]` and none of the three other chart tags. -/
def reviewInsightSel (insights : List String) : List String :=
  insights.filter (fun i =>
    substrB "[INSIGHT]" i && !substrB "[revenue]" i && !substrB "[orders]" i &&
      !substrB "[late]" i)

/-- Model of `build_trend_pack_report` (lines 419-562): the ordered markdown
report lines assembled from the accumulated thresholds, QA notes and
insights.  Sections appear in the fixed source order, list sections render
through `bullets`, and the executive summary lists at most the first two
insights. -/
def build_trend_pack_report (thresholds qa_notes insights : List String) : List String :=
  ["# Olist Monthly Trend Pack",
   "",
   "Monthly trend pack using the Olist dataset. The goal is simple: QA-checked metrics, clean charts, and clear, actionable takeaways.",
   "",
   "## Executive Summary"] ++
  bullets (insights.take 2) ++
  ["",
   "## Metric Definitions",
   "- **Revenue (delivered only):** Sum of payment value for delivered orders",
   "- **Delivered rate:** delivered_orders / total_orders",
   "- **Late delivery rate:** late_delivered_orders / delivered_orders (is_late=1)",
   "- **Review score (avg):** Average review score split into late vs on-time groups",
   "",
   "## Generated Charts",
   "- outputs/charts/01_revenue_per_month.png",
   "- outputs/charts/02_orders_and_delivered_rate.png",
   "- outputs/charts/03_late_delivery_rate.png",
   "- outputs/charts/04_review_score_late_vs_on_time.png",
   "",
   "## Thresholds / Filters"] ++
  bullets thresholds ++
  ["",
   "## QA Notes"] ++
  bullets qa_notes ++
  ["",
   "# Chart Notes & Insights",
   "",
   "## 01) Revenue per Month (Delivered Orders Only)",
   "**Chart:** outputs/charts/01_revenue_per_month.png  ",
   "**QA gate:** none (baseline visibility)",
   "",
   "**So what**"] ++
  bullets (insights_for insights "revenue") ++
  ["",
   "**Follow-up question**",
   "- If revenue changes, is it driven by order volume, average order value, or payment mix?",
   "",
   "## 02) Orders per Month + Delivered Rate",
   "**Chart:** outputs/charts/02_orders_and_delivered_rate.png  ",
   "**QA gate:** total_orders >= 100",
   "",
   "**So what**"] ++
  bullets (insights_for insights "orders") ++
  ["",
   "**Follow-up question**",
   "- When delivered rate dips, are those months concentrated in certain seller states or categories?",
   "",
   "## 03) Late Delivery Rate (Delivered Orders Only)",
   "**Chart:** outputs/charts/03_late_delivery_rate.png  ",
   "**QA gate:** delivered_orders >= 100",
   "",
   "**So what**"] ++
  bullets (insights_for insights "late") ++
  ["",
   "**Follow-up question**",
   "- Are late deliveries driven by specific sellers, shipping distance, or category handling time?",
   "",
   "## 04) Avg Review Score - Late vs On-Time",
   "**Chart:** outputs/charts/04_review_score_late_vs_on_time.png  ",
   "**QA gate:** min_reviews = 30 for both groups",
   "",
   "**So what**"] ++
  bullets (reviewInsightSel insights) ++
  ["",
   "**Follow-up question**",
   "- What's the review 'breakpoint' (e.g., after how many days late do reviews drop sharply)?",
   "",
   "## Reproducibility",
   "- Source extract script: scripts/01_monthly_trend_pack.py",
   "- Chart + report generator: scripts/02_monthly_trend_charts.py",
   "- Outputs: outputs/charts/ and outputs/trend_pack.md",
   ""]

/-- Lines of a report section: everything after the first occurrence of the
anchor line, up to the next blank line. -/
def sectionAfter (rep : List String) (anchor : String) : List String :=
  ((rep.dropWhile (fun l => l != anchor)).drop 1).takeWhile (fun l => l != "")

/-- The `So what` block of one chart subsection: within the part of the
report starting at the chart's heading, the lines following `**So what**` up
to the next blank line. -/
def soWhatAfter (rep : List String) (chartAnchor : String) : List String :=
  sectionAfter (rep.dropWhile (fun l => l != chartAnchor)) "**So what**"

/-! ## Pipeline mains -/

/-- Label-and-frame QA sequence of `01_monthly_trend_pack.py`'s `main`
(lines 381-414): runs the declared checks per dataset in order, aborting on a
required-columns failure, and returns every console QA warning the soft
checks produced. -/
def script01_qa (df_orders df_rev df_review df_late : Df) : Except String (List String) := do
  let ordersLabel : String := "orders/month"
  let revLabel : String := "revenue/month"
  let reviewLabel : String := "reviews late vs on-time"
  let lateLabel : String := "late rate/month"
  qa_required_columns df_orders
    ["purchase_month", "total_orders", "delivered_orders", "delivered_rate_pct"] ordersLabel
  let w1 := qa_no_nulls df_orders ["purchase_month"] ordersLabel
  let w2 := qa_unique_month df_orders "purchase_month" ordersLabel []
  let w3 := qa_month_continuity df_orders "purchase_month" ordersLabel
  qa_required_columns df_rev ["purchase_month", "revenue"] revLabel
  let w4 := qa_no_nulls df_rev ["purchase_month", "revenue"] revLabel
  let w5 := qa_unique_month df_rev "purchase_month" revLabel []
  let w6 := qa_month_continuity df_rev "purchase_month" revLabel
  let w7 := qa_non_negative df_rev "revenue" revLabel
  qa_required_columns df_review
    ["purchase_month", "is_late", "review_count", "avg_review_score"] reviewLabel
  let w8 := qa_no_nulls df_review ["purchase_month", "is_late"] reviewLabel
  let w9 := qa_unique_month df_review "purchase_month" reviewLabel ["is_late"]
  let w10 := qa_month_continuity df_review "purchase_month" reviewLabel
  qa_required_columns df_late
    ["purchase_month", "delivered_orders", "late_delivered_orders", "late_delivery_rate_pct"]
    lateLabel
  let w11 := qa_no_nulls df_late ["purchase_month"] lateLabel
  let w12 := qa_unique_month df_late "purchase_month" lateLabel []
  let w13 := qa_month_continuity df_late "purchase_month" lateLabel
  Except.ok (w1 ++ w2 ++ w3 ++ w4 ++ w5 ++ w6 ++ w7 ++ w8 ++ w9 ++ w10 ++ w11 ++ w12 ++ w13)

/-- Threshold declarations pushed by `02_monthly_trend_charts.py`'s `main`
(lines 603-608). -/
def mainThresholds : List String :=
  ["Orders chart: total_orders >= 100",
   "Late delivery chart: delivered_orders >= 100",
   "Review chart: min_reviews = 30 for both late/on-time",
   "Revenue chart: no min-volume filter applied"]

/-- Model of `02_monthly_trend_charts.py`'s `main` (lines 576-631), starting
from the four loaded frames (the CSV round trip through `outputs/csv` is the
identity on the modelled tabular data): normalises each frame's month column
in dict order, runs the four chart stages, and assembles the report.
Returns the final QA notes, insights, and report lines. -/
def run_charts (orders revenue review late : Df) :
    Except String (List String × List String × List String) := do
  let monthCol : String := "purchase_month"
  let (ordersM, qa1) := add_month orders monthCol []
  let (revenueM, qa2) := add_month revenue monthCol qa1
  let (reviewM, qa3) := add_month review monthCol qa2
  let (lateM, qa4) := add_month late monthCol qa3
  let ins1 ← chart_revenue_per_month revenueM []
  let (_, qa5, ins2) ← chart_orders_and_delivery_rate ordersM qa4 ins1
  let (_, qa6, ins3) ← chart_late_delivery_rate lateM qa5 ins2
  let (qa7, ins4) ← chart_review_score_late_vs_on_time reviewM qa6 ins3
  Except.ok (qa7, ins4, build_trend_pack_report mainThresholds qa7 ins4)

/-! ## Audio-analytics slice reader
(`src/audio-analytics/python/scripts/01_read_one_slice.py`) -/

/-- JSON value, as loaded by `json.load` from an MPD slice file. -/
inductive J where
  | null : J
  | boolV : Bool → J
  | numV : Int → J
  | strV : String → J
  | arr : List J → J
  | obj : List (String × J) → J

/-- Model of `dict.get(key, default)`: field lookup on an object, the default
elsewhere or when the key is absent. -/
def J.getD (j : J) (k : String) (dflt : J) : J :=
  match j with
  | .obj kvs => (kvs.lookup k).getD dflt
  | _ => dflt

/-- Python truthiness of the values relevant to `if not slice_label`. -/
def J.truthy : J → Bool
  | .null => false
  | .boolV b => b
  | .numV n => n != 0
  | .strV s => !s.isEmpty
  | .arr xs => !xs.isEmpty
  | .obj kvs => !kvs.isEmpty

/-- Integer reading of a JSON value, used for `num_tracks` sums. -/
def J.toInt : J → Int
  | .numV n => n
  | _ => 0

/-- Array elements of a JSON value (`[]` elsewhere). -/
def J.elems : J → List J
  | .arr xs => xs
  | _ => []

/-- Observable outcome of the slice-reading script: the console messages it
printed before terminating, and whether it terminated normally or with an
uncaught exception (its message). -/
structure SliceRun where
  log : List String
  err : Option String
deriving DecidableEq, Repr

/-- Model of the module-level body of `01_read_one_slice.py` (lines 49-111),
starting after `json.load`: reads the info block with `{}` as default,
warns (only) on a missing/falsy slice label, reads `playlists` with `[]` as
default, and then peeks at `playlists[0]` — a plain index that raises
`IndexError` on an empty list, terminating the script; with a first playlist
present it derives the expected track-appearance count and the declared
versus actual `num_tracks` note, every other absent field having a default. -/
def read_one_slice (data : J) : SliceRun :=
  let info := data.getD "info" (J.obj [])
  let slice_label := info.getD "slice" J.null
  let generated_on := info.getD "generated_on" J.null
  let version := info.getD "version" J.null
  let warn :=
    if !slice_label.truthy then
      ["[QA WARNING] Missing slice label in JSON; file provenance may be incomplete."]
    else []
  let log0 := warn ++
    ["[INFO] slice_label", "[INFO] generated_on", "[INFO] version"]
  let _ := (generated_on, version)
  let playlists := (data.getD "playlists" (J.arr [])).elems
  let log1 := log0 ++ ["[INFO] playlists_in_slice"]
  match playlists.get? 0 with
  | none => { log := log1, err := some "IndexError: list index out of range" }
  | some first =>
    let log2 := log1 ++ ["[INFO] first_playlist_pid", "[INFO] first_playlist_name"]
    let expected_tracks := (playlists.map (fun p => (p.getD "num_tracks" (J.numV 0)).toInt)).sum
    let _ := expected_tracks
    let log3 := log2 ++ ["[INFO] expected_track_appearances"]
    let declared := first.getD "num_tracks" J.null
    let actual := (first.getD "tracks" (J.arr [])).elems.length
    let note :=
      match declared with
      | J.null => []
      | J.numV d => if d = (actual : Int) then [] else ["[QA NOTE] num_tracks mismatch on first playlist."]
      | _ => ["[QA NOTE] num_tracks mismatch on first playlist."]
    { log := log3 ++ note, err := none }

/-! ## Helper lemmas -/

theorem missing_filter_empty_iff (cols required : List String) :
    (required.filter (fun c => !cols.contains c)).isEmpty = true ↔
      ∀ c ∈ required, c ∈ cols := by
  simp [List.isEmpty_iff, List.filter_eq_nil_iff]

/-! ## Claim theorems -/

/-- C1: for every tabular result and declared set of required column names,
the required-columns check (`qa_required_columns`, and the inline check of
the chart stages) raises a hard failure iff at least one declared column is
absent from the result's column set; when all are present it returns
normally, emitting nothing. -/
theorem required_columns_check_raises_iff_missing (df : Df) (required : List String)
    (label : String) (qa ins : List String) :
    ((∃ c ∈ required, c ∉ df.columns) ↔
      ∃ msg, qa_required_columns df required label = Except.error msg) ∧
    ((∀ c ∈ required, c ∈ df.columns) ↔
      qa_required_columns df required label = Except.ok ()) ∧
    ((∃ c ∈ ["month", "total_orders", "delivered_rate_pct"], c ∉ df.columns) ↔
      ∃ msg, chart_orders_and_delivery_rate df qa ins = Except.error msg) := by
  refine ⟨?_, ?_, ?_⟩
  · unfold qa_required_columns
    by_cases hm : (required.filter (fun c => !df.columns.contains c)).isEmpty = true
    · rw [if_pos hm]
      have h := (missing_filter_empty_iff df.columns required).mp hm
      simp only [iff_iff_implies_and_implies]
      constructor
      · rintro ⟨c, hc, hnc⟩; exact absurd (h c hc) hnc
      · rintro ⟨msg, hmsg⟩; cases hmsg
    · rw [if_neg hm]
      constructor
      · intro _; exact ⟨_, rfl⟩
      · intro _
        by_contra hall
        push_neg at hall
        exact hm ((missing_filter_empty_iff df.columns required).mpr hall)
  · unfold qa_required_columns
    by_cases hm : (required.filter (fun c => !df.columns.contains c)).isEmpty = true
    · rw [if_pos hm]
      simpa using (missing_filter_empty_iff df.columns required).mp hm
    · rw [if_neg hm]
      constructor
      · intro h; exact absurd ((missing_filter_empty_iff df.columns required).mpr h) hm
      · intro h; cases h
  · unfold chart_orders_and_delivery_rate
    by_cases hm : ((["month", "total_orders", "delivered_rate_pct"] : List String).filter
        (fun c => !df.columns.contains c)).isEmpty = true
    · rw [if_neg (by simp only [hm, Bool.not_true]; simp)]
      have h := (missing_filter_empty_iff df.columns _).mp hm
      simp only [iff_iff_implies_and_implies]
      constructor
      · rintro ⟨c, hc, hnc⟩; exact absurd (h c hc) hnc
      · rintro ⟨msg, hmsg⟩; cases hmsg
    · rw [if_pos (by rw [Bool.eq_false_iff.mpr hm]; rfl)]
      constructor
      · intro _; exact ⟨_, rfl⟩
      · intro _
        by_contra hall
        push_neg at hall
        exact hm ((missing_filter_empty_iff df.columns _).mpr hall)

/-- Orders frame exercising both sides of the volume threshold: January has
150 orders, February 50. -/
def wOrders : Df :=
  ⟨["month", "total_orders", "delivered_rate_pct"],
   [[("month", Val.dateV 2021 1), ("total_orders", Val.intV 150),
     ("delivered_rate_pct", Val.intV 97)],
    [("month", Val.dateV 2021 2), ("total_orders", Val.intV 50),
     ("delivered_rate_pct", Val.intV 90)]]⟩

/-- Late-delivery frame with one month above the volume threshold. -/
def wLate : Df :=
  ⟨["month", "delivered_orders", "late_delivery_rate_pct"],
   [[("month", Val.dateV 2021 1), ("delivered_orders", Val.intV 150),
     ("late_delivery_rate_pct", Val.intV 8)]]⟩

/-- C2: for every input tabular result accepted by the chart stages, the
filtered result is exactly the input rows satisfying the threshold predicate
(volume column `>= 100`) under the unchanged column set — a filtered copy,
the input untouched — every filtered row satisfies the predicate, and the
drop note carrying `len(input) - len(filtered)` is appended to the QA notes
exactly when that count is nonzero. -/
theorem chart_filter_drop_count_and_threshold (df dfl : Df) (qa ins qal insl : List String)
    (t u : Df × List String × List String)
    (h : chart_orders_and_delivery_rate df qa ins = Except.ok t)
    (hl : chart_late_delivery_rate dfl qal insl = Except.ok u) :
    (t.1.rows = df.rows.filter (fun r => (r.getV "total_orders").geNat 100) ∧
     t.1.columns = df.columns ∧
     (∀ r ∈ t.1.rows, (r.getV "total_orders").geNat 100 = true) ∧
     t.2.1 = (if df.rows.length - t.1.rows.length ≠ 0 then
        qa ++ [ordersDropMsg (df.rows.length - t.1.rows.length)] else qa)) ∧
    (u.1.rows = dfl.rows.filter (fun r => (r.getV "delivered_orders").geNat 100) ∧
     u.1.columns = dfl.columns ∧
     (∀ r ∈ u.1.rows, (r.getV "delivered_orders").geNat 100 = true) ∧
     u.2.1 = (if dfl.rows.length - u.1.rows.length ≠ 0 then
        qal ++ [lateDropMsg (dfl.rows.length - u.1.rows.length)] else qal)) := by
  constructor
  · simp only [chart_orders_and_delivery_rate] at h
    split at h
    · cases h
    · cases h
      refine ⟨rfl, rfl, fun r hr => (List.mem_filter.mp hr).2, rfl⟩
  · simp only [chart_late_delivery_rate] at hl
    split at hl
    · cases hl
    · cases hl
      refine ⟨rfl, rfl, fun r hr => (List.mem_filter.mp hr).2, rfl⟩

/-- Outcome of the orders chart stage on `wOrders`: one row kept, drop count
1 recorded. -/
def wOrdersOut : Df × List String × List String :=
  (⟨wOrders.columns, [wOrders.rows.getD 0 []]⟩, [ordersDropMsg 1], [ordersInsight])

/-- Outcome of the late-delivery chart stage on `wLate`: nothing dropped. -/
def wLateOut : Df × List String × List String :=
  (⟨wLate.columns, wLate.rows⟩, [], [lateInsight])

/-- Witness: the chart filter at the concrete frames drops exactly the sparse
February row and records the count 1. -/
theorem chart_filter_drop_count_witness :
    wOrdersOut.1.rows = wOrders.rows.filter (fun r => (r.getV "total_orders").geNat 100) ∧
    wOrdersOut.2.1 = (if wOrders.rows.length - wOrdersOut.1.rows.length ≠ 0 then
      [] ++ [ordersDropMsg (wOrders.rows.length - wOrdersOut.1.rows.length)] else []) ∧
    wLateOut.1.rows = wLate.rows.filter (fun r => (r.getV "delivered_orders").geNat 100) := by
  have h := chart_filter_drop_count_and_threshold wOrders wLate [] [] [] []
    wOrdersOut wLateOut rfl rfl
  exact ⟨h.1.1, h.1.2.2.2, h.2.1⟩

/-- C10: on a slice file whose JSON object has an empty `playlists` array,
the slice-reading script warns about the absent info-block fields but then
fails at the first-playlist peek (`playlists[0]` on an empty list raises
`IndexError`), while the same script with one playlist present terminates
normally, every other absent field getting a default. -/
theorem read_one_slice_empty_playlists_fails :
    (read_one_slice (J.obj [("playlists", J.arr [])])).err =
      some "IndexError: list index out of range" ∧
    (read_one_slice (J.obj [("playlists", J.arr [])])).log =
      ["[QA WARNING] Missing slice label in JSON; file provenance may be incomplete.",
       "[INFO] slice_label", "[INFO] generated_on", "[INFO] version",
       "[INFO] playlists_in_slice"] ∧
    (((J.obj [("playlists", J.arr [])]).getD "playlists" (J.arr [])).elems.get? 0).isNone
      = true ∧
    (read_one_slice (J.obj [("playlists", J.arr [J.obj []])])).err = none := by
  exact ⟨rfl, rfl, rfl, rfl⟩

theorem length_filterMap_ite {α β : Type} (l : List α) (c : α → Prop) [DecidablePred c]
    (m : α → β) :
    (l.filterMap (fun x => if c x then some (m x) else none)).length =
      l.countP (fun x => decide (c x)) := by
  induction l with
  | nil => rfl
  | cons x t ih => by_cases h : c x <;> simp [List.filterMap_cons, List.countP_cons, h, ih]

/-- Months `2021-01`, `2021-02`, `2021-06`: one gap (Feb to Jun). -/
def mgapDf : Df :=
  ⟨["purchase_month"],
   [[("purchase_month", Val.strV "2021-01")],
    [("purchase_month", Val.strV "2021-02")],
    [("purchase_month", Val.strV "2021-06")]]⟩

/-- A frame with a single month. -/
def oneMonthDf : Df :=
  ⟨["purchase_month"], [[("purchase_month", Val.strV "2021-04")]]⟩

/-- C4: the temporal-continuity check emits zero findings when the column
parses to fewer than two distinct months, and otherwise exactly one finding
per pair of consecutive sorted distinct months more than 35 days apart;
months 2021-01, 2021-02, 2021-06 yield exactly the one gap finding before
2021-06. -/
theorem qa_month_continuity_gap_findings (df : Df) (col label : String) :
    (qa_month_continuity df col label).length =
      ((sortedMonths df col).zip (sortedMonths df col).tail).countP
        (fun p => 35 < p.2.rata - p.1.rata) ∧
    ((sortedMonths df col).length < 2 → qa_month_continuity df col label = []) ∧
    qa_month_continuity mgapDf "purchase_month" "orders/month" =
      ["[QA WARNING] orders/month: gap before 2021-06-01 = 120 days"] := by
  refine ⟨?_, ?_, by decide⟩
  · unfold qa_month_continuity
    by_cases h : (sortedMonths df col).length < 2
    · rw [if_pos h]
      cases hm : sortedMonths df col with
      | nil => simp [hm]
      | cons a t =>
        cases t with
        | nil => simp [hm]
        | cons b t2 =>
          rw [hm] at h
          exact absurd h (by simp [List.length_cons])
    · rw [if_neg h]
      exact length_filterMap_ite _ _ _
  · intro h
    unfold qa_month_continuity
    rw [if_pos h]

/-- Witness: on a single-month frame the continuity check returns no
findings. -/
theorem qa_month_continuity_single_month_witness :
    qa_month_continuity oneMonthDf "purchase_month" "orders/month" = [] :=
  (qa_month_continuity_gap_findings oneMonthDf "purchase_month" "orders/month").2.1
    (by decide)

theorem contains_cons_swap (t : List Val) (seen rest : List (List Val)) (x : List Val) :
    ((t :: seen) ++ rest).contains x = (seen ++ t :: rest).contains x := by
  rw [Bool.eq_iff_iff]
  simp only [List.contains_iff_exists_mem_beq, List.mem_append, List.mem_cons]
  constructor
  · rintro ⟨y, hy, he⟩; exact ⟨y, by tauto, he⟩
  · rintro ⟨y, hy, he⟩; exact ⟨y, by tauto, he⟩

theorem duplicatedFlags_count_eq (ts : List (List Val)) (seen : List (List Val)) :
    (duplicatedFlags seen ts).count true =
      (List.range ts.length).countP
        (fun i => (seen ++ ts.take i).contains (ts.getD i [])) := by
  induction ts generalizing seen with
  | nil => simp [duplicatedFlags]
  | cons t ts ih =>
    rw [duplicatedFlags, List.count_cons, ih (t :: seen), List.length_cons,
      List.range_succ_eq_map, List.countP_cons]
    simp only [List.take_zero, List.append_nil, List.getD_cons_zero, List.countP_map]
    congr 1
    · apply List.countP_congr
      intro i _
      simp only [Function.comp]
      rw [List.take_succ_cons, List.getD_cons_succ, contains_cons_swap]
    · simp

theorem contains_take_eq_range_any (ts : List (List Val)) (i : Nat) (hi : i ≤ ts.length) :
    (ts.take i).contains (ts.getD i []) =
      (List.range i).any (fun j => ts.getD j [] == ts.getD i []) := by
  rw [Bool.eq_iff_iff]
  simp only [List.contains_iff_exists_mem_beq, List.any_eq_true, List.mem_range, beq_iff_eq]
  constructor
  · rintro ⟨y, hy, he⟩
    obtain ⟨k, hk, hke⟩ := List.mem_take_iff_getElem.mp hy
    refine ⟨k, lt_of_lt_of_le (lt_min_iff.mp hk).1 le_rfl, ?_⟩
    rw [List.getD_eq_getElem _ _ (lt_min_iff.mp hk).2, hke]
    exact he.symm
  · rintro ⟨j, hj, he⟩
    refine ⟨ts.getD j [], ?_, he.symm⟩
    apply List.mem_take_iff_getElem.mpr
    have hjl : j < ts.length := lt_of_lt_of_le hj hi
    exact ⟨j, lt_min hj hjl, (List.getD_eq_getElem _ _ hjl).symm⟩

/-- C5: the uniqueness-at-grain check's reported duplicate count equals the
number of rows whose full key tuple (month column plus extra keys) equals the
key tuple of some earlier row, and the soft finding carrying that count and
the key list is emitted exactly when the count is nonzero. -/
theorem qa_unique_month_duplicate_count (df : Df) (month_col label : String)
    (extra_keys : List String) :
    letI keys := month_col :: extra_keys
    letI ts := df.rows.map (fun r => keyTuple r keys)
    (duplicatedFlags [] ts).count true =
      (List.range ts.length).countP
        (fun i => (List.range i).any (fun j => ts.getD j [] == ts.getD i [])) ∧
    qa_unique_month df month_col label extra_keys =
      (if (duplicatedFlags [] ts).count true ≠ 0 then
        ["[QA WARNING] " ++ label ++ ": found " ++
          fmtComma ((duplicatedFlags [] ts).count true) ++ " duplicate rows by keys=" ++
          pyListRepr keys]
       else []) := by
  constructor
  · rw [duplicatedFlags_count_eq]
    apply List.countP_congr
    intro i hi
    simp only [List.nil_append]
    rw [contains_take_eq_range_any _ i (le_of_lt (List.mem_range.mp hi))]
  · rfl

theorem reviewDeltas_eq_map (l : List PivotRow)
    (h : ∀ r ∈ l, r.sc0.isSome ∧ r.sc1.isSome) :
    reviewDeltas l = l.map (fun r => r.sc0.getD 0 - r.sc1.getD 0) := by
  induction l with
  | nil => rfl
  | cons r t ih =>
    obtain ⟨h0, h1⟩ := h r (List.mem_cons_self r t)
    obtain ⟨a, ha⟩ := Option.isSome_iff_exists.mp h0
    obtain ⟨b, hb⟩ := Option.isSome_iff_exists.mp h1
    have ht := ih (fun x hx => h x (List.mem_cons_of_mem r hx))
    simp [reviewDeltas, List.filterMap_cons, ha, hb, List.map_cons] at ht ⊢
    exact ht

/-- Pivot with one stable month (both counts over 30) and one unstable
month. -/
def wPivot : List PivotRow :=
  [⟨Val.dateV 2021 1, some 40, some 4, some 35, some 3⟩,
   ⟨Val.dateV 2021 2, some 40, some (9/2), some 10, some 3⟩]

/-- C3: for every pivoted two-group comparison whose gated rows carry both
scores, the rows passing the stability gate are exactly those with both
groups' review counts at least 30; when no month passes, the stage appends
one soft finding and no insight (and, being a total function, raises
nothing); when some month passes, exactly one insight is appended, carrying
the two-decimal mean, minimum and maximum of the per-index on-time-minus-late
delta. -/
theorem review_insight_stage_empty_vs_nonempty (pivot : List PivotRow)
    (qa ins : List String)
    (hsc : ∀ r ∈ reviewStabilityFilter pivot, r.sc0.isSome ∧ r.sc1.isSome) :
    (∀ r ∈ reviewStabilityFilter pivot, ge30 r.rc0 = true ∧ ge30 r.rc1 = true) ∧
    (reviewStabilityFilter pivot = [] →
      (chartReviewInsightStage pivot qa ins).2 = ins ∧
      (chartReviewInsightStage pivot qa ins).1 =
        (if pivot.length ≠ 0 then qa ++ [reviewDropMsg pivot.length] else qa) ++
          [stabilityMsg]) ∧
    (reviewStabilityFilter pivot ≠ [] →
      letI ds := (reviewStabilityFilter pivot).map (fun r => r.sc0.getD 0 - r.sc1.getD 0)
      (chartReviewInsightStage pivot qa ins).2 =
        ins ++ [reviewInsightMsg (ds.sum / (ds.length : ℚ)) (listMin ds) (listMax ds)
          (reviewStabilityFilter pivot).length] ∧
      (chartReviewInsightStage pivot qa ins).1 =
        (if pivot.length - (reviewStabilityFilter pivot).length ≠ 0 then
          qa ++ [reviewDropMsg (pivot.length - (reviewStabilityFilter pivot).length)]
         else qa)) := by
  refine ⟨?_, ?_, ?_⟩
  · intro r hr
    have := (List.mem_filter.mp hr).2
    simp only [Bool.and_eq_true] at this
    exact this
  · intro h2
    simp only [chartReviewInsightStage, reviewStabilityFilter] at h2 ⊢
    simp [h2]
  · intro h3
    have hne : (reviewStabilityFilter pivot).isEmpty = false := by
      simpa [List.isEmpty_iff] using h3
    simp only [chartReviewInsightStage]
    rw [hne]
    simp only [Bool.false_eq_true, if_false]
    rw [reviewDeltas_eq_map _ hsc]
    exact ⟨rfl, trivial⟩

/-- Witness: on the concrete pivot one month survives the gate; the stage
records the dropped month and emits exactly the mean/min/max 1.00 insight. -/
theorem review_insight_stage_witness :
    (chartReviewInsightStage wPivot [] []).2 = [reviewInsightMsg 1 1 1 1] ∧
    (chartReviewInsightStage wPivot [] []).1 = [reviewDropMsg 1] := by
  have h := review_insight_stage_empty_vs_nonempty wPivot [] []
    (by with_unfolding_all decide)
  have h3 := h.2.2 (by with_unfolding_all decide)
  refine ⟨?_, ?_⟩
  · rw [h3.1]
    with_unfolding_all decide
  · rw [h3.2]
    with_unfolding_all decide

theorem keyLe_refl (k : Option Ym) : keyLe k k = true := by
  cases k <;> simp [keyLe, Ym.le]

/-- C6: `add_month` returns a copy of the frame extended with the parsed
month key (`monthKeyed`), as a permutation (no row dropped), pairwise sorted
ascending by the key, and stably: for every key value the rows carrying it
keep their original relative order; the unparsed count is reported in one
soft finding exactly when it is nonzero, and null-keyed rows sort to the end
(no null key ever precedes a parsed one). -/
theorem add_month_stable_sort_and_findings (df : Df) (col : String) (qa : List String) :
    ((add_month df col qa).1.rows).Perm (monthKeyed df col) ∧
    ((add_month df col qa).1.rows).Pairwise rowLe ∧
    (∀ k : Option Ym,
      ((add_month df col qa).1.rows).filter (fun r => rowKey r == k) =
        (monthKeyed df col).filter (fun r => rowKey r == k)) ∧
    ((add_month df col qa).2 =
      (if (monthKeyed df col).countP (fun r => (r.getV "month").isna) ≠ 0 then
        qa ++ [addMonthMsg col ((monthKeyed df col).countP (fun r => (r.getV "month").isna))]
       else qa)) ∧
    ((add_month df col qa).1.rows).Pairwise
      (fun a b => rowKey a = none → rowKey b = none) := by
  refine ⟨List.perm_insertionSort rowLe (monthKeyed df col),
    List.sorted_insertionSort rowLe (monthKeyed df col), ?_, rfl, ?_⟩
  · intro k
    have hkey : ∀ x ∈ (monthKeyed df col).filter (fun r => rowKey r == k),
        rowKey x = k := by
      intro x hx
      simpa using (List.mem_filter.mp hx).2
    have h1 : ((monthKeyed df col).filter (fun r => rowKey r == k)).Pairwise rowLe := by
      apply List.pairwise_of_forall_mem_list
      intro a ha b hb
      unfold rowLe
      rw [hkey a ha, hkey b hb]
      exact keyLe_refl k
    have h3 := List.sublist_insertionSort h1 (List.filter_sublist (monthKeyed df col))
    have h5 : List.Sublist ((monthKeyed df col).filter (fun r => rowKey r == k))
        (((monthKeyed df col).insertionSort rowLe).filter (fun r => rowKey r == k)) := by
      have := List.Sublist.filter (fun r => rowKey r == k) h3
      rwa [List.filter_filter, List.filter_congr (fun x _ => Bool.and_self _)] at this
    have h6 : (((monthKeyed df col).insertionSort rowLe).filter
        (fun r => rowKey r == k)).Perm
        ((monthKeyed df col).filter (fun r => rowKey r == k)) :=
      List.Perm.filter _ (List.perm_insertionSort rowLe (monthKeyed df col))
    exact (List.Sublist.eq_of_length h5 h6.length_eq.symm).symm
  · apply List.Pairwise.imp ?_ (List.sorted_insertionSort rowLe (monthKeyed df col))
    intro a b hab hna
    unfold rowLe at hab
    rw [hna] at hab
    cases hb : rowKey b with
    | none => rfl
    | some ym => rw [hb] at hab; cases hab

theorem dash_data (s : String) : ("- " ++ s).data = '-' :: ' ' :: s.data := by
  rw [String.data_append]
  rfl

theorem bullets_head (l : List String) : ∀ x ∈ bullets l, x.data.head? = some '-' := by
  intro x hx
  unfold bullets at hx
  split at hx
  · rw [List.mem_singleton] at hx
    subst hx
    rfl
  · obtain ⟨y, _, rfl⟩ := List.mem_map.mp hx
    rw [dash_data]
    rfl

theorem ne_of_head (x t : String) (hx : x.data.head? = some '-')
    (ht : t.data.head? ≠ some '-') : (x != t) = true := by
  rw [bne_iff_ne]
  intro he
  exact ht (he ▸ hx)

theorem dropWhile_bullets_append (a : String) (ha : a.data.head? ≠ some '-')
    (l rest : List String) :
    (bullets l ++ rest).dropWhile (fun s => s != a) =
      rest.dropWhile (fun s => s != a) := by
  rw [List.dropWhile_append]
  have h : (bullets l).dropWhile (fun s => s != a) = [] :=
    List.dropWhile_eq_nil_iff.mpr (fun x hx => ne_of_head x a (bullets_head l x hx) ha)
  simp [h]

theorem takeWhile_bullets_append (l rest : List String) :
    (bullets l ++ "" :: rest).takeWhile (fun s => s != "") = bullets l := by
  rw [List.takeWhile_append]
  have h : (bullets l).takeWhile (fun s => s != "") = bullets l :=
    List.takeWhile_eq_self_iff.mpr
      (fun x hx => ne_of_head x "" (bullets_head l x hx) (by decide))
  simp [h, List.takeWhile_cons]

theorem exec_section_eq (t q i : List String) :
    sectionAfter (build_trend_pack_report t q i) "## Executive Summary" =
      bullets (i.take 2) := by
  unfold build_trend_pack_report sectionAfter
  simp only [List.append_assoc, List.cons_append, List.nil_append]
  simp only [List.dropWhile_cons]
  simp only [bne_self_eq_false, Bool.false_eq_true, if_false, if_true,
    List.drop_succ_cons, List.drop_zero]
  norm_num
  exact takeWhile_bullets_append (i.take 2) _

theorem qa_section_eq (t q i : List String) :
    sectionAfter (build_trend_pack_report t q i) "## QA Notes" = bullets q := by
  have hb := dropWhile_bullets_append "## QA Notes" (by decide)
  unfold build_trend_pack_report sectionAfter
  simp only [List.append_assoc, List.cons_append, List.nil_append]
  simp [List.dropWhile_cons, hb, List.drop_succ_cons, List.drop_zero,
    takeWhile_bullets_append]

theorem thresholds_section_eq (t q i : List String) :
    sectionAfter (build_trend_pack_report t q i) "## Thresholds / Filters" = bullets t := by
  have hb := dropWhile_bullets_append "## Thresholds / Filters" (by decide)
  unfold build_trend_pack_report sectionAfter
  simp only [List.append_assoc, List.cons_append, List.nil_append]
  simp [List.dropWhile_cons, hb, List.drop_succ_cons, List.drop_zero,
    takeWhile_bullets_append]

theorem soWhat01_eq (t q i : List String) :
    soWhatAfter (build_trend_pack_report t q i)
      "## 01) Revenue per Month (Delivered Orders Only)" =
      bullets (insights_for i "revenue") := by
  have hb1 := dropWhile_bullets_append
    "## 01) Revenue per Month (Delivered Orders Only)" (by decide)
  have hb2 := dropWhile_bullets_append "**So what**" (by decide)
  unfold build_trend_pack_report soWhatAfter sectionAfter
  simp only [List.append_assoc, List.cons_append, List.nil_append]
  simp [List.dropWhile_cons, hb1, hb2, List.drop_succ_cons, List.drop_zero,
    takeWhile_bullets_append]

theorem soWhat02_eq (t q i : List String) :
    soWhatAfter (build_trend_pack_report t q i)
      "## 02) Orders per Month + Delivered Rate" =
      bullets (insights_for i "orders") := by
  have hb1 := dropWhile_bullets_append "## 02) Orders per Month + Delivered Rate" (by decide)
  have hb2 := dropWhile_bullets_append "**So what**" (by decide)
  unfold build_trend_pack_report soWhatAfter sectionAfter
  simp only [List.append_assoc, List.cons_append, List.nil_append]
  simp [List.dropWhile_cons, hb1, hb2, List.drop_succ_cons, List.drop_zero,
    takeWhile_bullets_append]

theorem soWhat03_eq (t q i : List String) :
    soWhatAfter (build_trend_pack_report t q i)
      "## 03) Late Delivery Rate (Delivered Orders Only)" =
      bullets (insights_for i "late") := by
  have hb1 := dropWhile_bullets_append
    "## 03) Late Delivery Rate (Delivered Orders Only)" (by decide)
  have hb2 := dropWhile_bullets_append "**So what**" (by decide)
  unfold build_trend_pack_report soWhatAfter sectionAfter
  simp only [List.append_assoc, List.cons_append, List.nil_append]
  simp [List.dropWhile_cons, hb1, hb2, List.drop_succ_cons, List.drop_zero,
    takeWhile_bullets_append]

theorem soWhat04_eq (t q i : List String) :
    soWhatAfter (build_trend_pack_report t q i)
      "## 04) Avg Review Score - Late vs On-Time" =
      bullets (reviewInsightSel i) := by
  have hb1 := dropWhile_bullets_append "## 04) Avg Review Score - Late vs On-Time" (by decide)
  have hb2 := dropWhile_bullets_append "**So what**" (by decide)
  unfold build_trend_pack_report soWhatAfter sectionAfter
  simp only [List.append_assoc, List.cons_append, List.nil_append]
  simp [List.dropWhile_cons, hb1, hb2, List.drop_succ_cons, List.drop_zero,
    takeWhile_bullets_append]

/-- Section headings of the assembled report, in their fixed order. -/
def reportHeaders : List String :=
  ["# Olist Monthly Trend Pack",
   "## Executive Summary",
   "## Metric Definitions",
   "## Generated Charts",
   "## Thresholds / Filters",
   "## QA Notes",
   "# Chart Notes & Insights",
   "## 01) Revenue per Month (Delivered Orders Only)",
   "## 02) Orders per Month + Delivered Rate",
   "## 03) Late Delivery Rate (Delivered Orders Only)",
   "## 04) Avg Review Score - Late vs On-Time",
   "## Reproducibility"]

theorem filter_header_bullets (l : List String) :
    (bullets l).filter (fun s => s.data.head? == some '#') = [] := by
  apply List.filter_eq_nil_iff.mpr
  intro x hx
  rw [bullets_head l x hx]
  decide

theorem report_headers_fixed (t q i : List String) :
    (build_trend_pack_report t q i).filter (fun l => l.data.head? == some '#') =
      reportHeaders := by
  unfold build_trend_pack_report
  simp only [List.append_assoc, List.filter_append, filter_header_bullets,
    List.nil_append, List.append_nil]
  rfl

/-- C7: the report assembler is a pure deterministic function of the three
accumulator lists — equal inputs give byte-identical output; its section
headings appear in the fixed declared order whatever the inputs; the
executive summary lists (bulleted) at most the first two insights; and with
an empty insights list the executive summary and every chart `So what`
subsection render the literal `- (none)` placeholder. -/
theorem build_report_deterministic_fixed_shape (t q i : List String) :
    (∀ t2 q2 i2 : List String, t = t2 → q = q2 → i = i2 →
      build_trend_pack_report t q i = build_trend_pack_report t2 q2 i2) ∧
    ((build_trend_pack_report t q i).filter (fun l => l.data.head? == some '#') =
      reportHeaders) ∧
    (sectionAfter (build_trend_pack_report t q i) "## Executive Summary" =
      bullets (i.take 2)) ∧
    (i = [] →
      sectionAfter (build_trend_pack_report t q i) "## Executive Summary" =
        ["- (none)"] ∧
      soWhatAfter (build_trend_pack_report t q i)
        "## 01) Revenue per Month (Delivered Orders Only)" = ["- (none)"] ∧
      soWhatAfter (build_trend_pack_report t q i)
        "## 02) Orders per Month + Delivered Rate" = ["- (none)"] ∧
      soWhatAfter (build_trend_pack_report t q i)
        "## 03) Late Delivery Rate (Delivered Orders Only)" = ["- (none)"] ∧
      soWhatAfter (build_trend_pack_report t q i)
        "## 04) Avg Review Score - Late vs On-Time" = ["- (none)"]) := by
  refine ⟨?_, report_headers_fixed t q i, exec_section_eq t q i, ?_⟩
  · intro t2 q2 i2 h1 h2 h3
    rw [h1, h2, h3]
  · intro hi
    subst hi
    refine ⟨?_, ?_, ?_, ?_, ?_⟩
    · rw [exec_section_eq]; rfl
    · rw [soWhat01_eq]; rfl
    · rw [soWhat02_eq]; rfl
    · rw [soWhat03_eq]; rfl
    · rw [soWhat04_eq]; rfl

/-- Witness: with no insights, the executive summary and chart 04's `So what`
subsection of a concrete report render the placeholder. -/
theorem build_report_empty_insights_witness :
    sectionAfter (build_trend_pack_report ["t"] ["n"] []) "## Executive Summary" =
      ["- (none)"] ∧
    soWhatAfter (build_trend_pack_report ["t"] ["n"] [])
      "## 04) Avg Review Score - Late vs On-Time" = ["- (none)"] := by
  have h := build_report_deterministic_fixed_shape ["t"] ["n"] []
  have h4 := h.2.2.2 rfl
  exact ⟨h4.1, h4.2.2.2.2⟩

/-- C9: in the assembled report, each of the first three chart subsections
lists exactly the insights containing its own bracketed tag, chart 04 lists
exactly the insights containing `[INSIGHT]` and none of the other three
tags, and consequently every insight listed under chart 04 mentions no other
chart's tag anywhere in its text. -/
theorem chart_soWhat_tag_filtering (t q i : List String) :
    (soWhatAfter (build_trend_pack_report t q i)
      "## 01) Revenue per Month (Delivered Orders Only)" =
        bullets (insights_for i "revenue")) ∧
    (soWhatAfter (build_trend_pack_report t q i)
      "## 02) Orders per Month + Delivered Rate" =
        bullets (insights_for i "orders")) ∧
    (soWhatAfter (build_trend_pack_report t q i)
      "## 03) Late Delivery Rate (Delivered Orders Only)" =
        bullets (insights_for i "late")) ∧
    (soWhatAfter (build_trend_pack_report t q i)
      "## 04) Avg Review Score - Late vs On-Time" =
        bullets (reviewInsightSel i)) ∧
    ((reviewInsightSel i).all (fun s =>
      substrB "[INSIGHT]" s && !substrB "[revenue]" s && !substrB "[orders]" s &&
        !substrB "[late]" s) = true) := by
  refine ⟨soWhat01_eq t q i, soWhat02_eq t q i, soWhat03_eq t q i, soWhat04_eq t q i, ?_⟩
  apply List.all_eq_true.mpr
  intro s hs
  exact (List.mem_filter.mp hs).2

theorem dash_inj (y w : String) (h : "- " ++ y = "- " ++ w) : y = w := by
  have hd := congrArg String.data h
  rw [dash_data, dash_data] at hd
  exact String.ext (by simpa using hd)

theorem mem_bullets_iff (w : String) (hw : w ≠ "(none)") (l : List String) :
    ("- " ++ w) ∈ bullets l ↔ w ∈ l := by
  unfold bullets
  split
  · case isTrue he =>
    rw [List.isEmpty_iff.mp he]
    simp only [List.mem_singleton, List.not_mem_nil, iff_false]
    intro hc
    exact hw (dash_inj w "(none)" hc)
  · rw [List.mem_map]
    constructor
    · rintro ⟨y, hy, hye⟩
      rwa [← dash_inj y w hye]
    · intro hwl
      exact ⟨w, hwl, rfl⟩

/-- C8 (amended): the final report's QA Notes section lists exactly the
warnings accumulated by the chart run's `qa_notes` log (unparseable dates,
dropped low-volume rows, dropped or empty stability months): such a warning
appears there iff it occurred.  The extraction script's own checks (nulls,
duplicates, temporal gaps, negative values) print console warnings that are
never accumulated and so never reach the report — see the counterexample to
the unamended claim. -/
theorem run_charts_report_qa_notes (o r rv l : Df)
    (p : List String × List String × List String)
    (h : run_charts o r rv l = Except.ok p) :
    sectionAfter p.2.2 "## QA Notes" = bullets p.1 ∧
    (∀ w : String, w ≠ "(none)" →
      ((("- " ++ w) ∈ sectionAfter p.2.2 "## QA Notes") ↔ w ∈ p.1)) := by
  have hrep : ∃ qa ins, p =
      (qa, ins, build_trend_pack_report mainThresholds qa ins) := by
    simp only [run_charts, bind, Except.bind] at h
    split at h
    · cases h
    · split at h
      · cases h
      · split at h
        · cases h
        · split at h
          · cases h
          · exact ⟨_, _, (Except.ok.inj h).symm⟩
  obtain ⟨qa, ins, rfl⟩ := hrep
  refine ⟨qa_section_eq mainThresholds qa ins, ?_⟩
  intro w hw
  rw [qa_section_eq mainThresholds qa ins]
  exact mem_bullets_iff w hw qa

/-- Orders extract: two clean months, both above the chart threshold. -/
def cOrders : Df :=
  ⟨["purchase_month", "total_orders", "delivered_orders", "delivered_rate_pct"],
   [[("purchase_month", Val.strV "2021-01"), ("total_orders", Val.intV 150),
     ("delivered_orders", Val.intV 140), ("delivered_rate_pct", Val.intV 93)],
    [("purchase_month", Val.strV "2021-02"), ("total_orders", Val.intV 160),
     ("delivered_orders", Val.intV 150), ("delivered_rate_pct", Val.intV 94)]]⟩

/-- Revenue extract carrying one negative revenue value, which makes
`qa_non_negative` warn on the console. -/
def cRevenue : Df :=
  ⟨["purchase_month", "revenue"],
   [[("purchase_month", Val.strV "2021-01"), ("revenue", Val.intV 500)],
    [("purchase_month", Val.strV "2021-02"), ("revenue", Val.intV (-5))]]⟩

/-- Review extract: one month with both groups above the stability
threshold. -/
def cReview : Df :=
  ⟨["purchase_month", "is_late", "review_count", "avg_review_score"],
   [[("purchase_month", Val.strV "2021-01"), ("is_late", Val.intV 0),
     ("review_count", Val.intV 40), ("avg_review_score", Val.ratV (21/5))],
    [("purchase_month", Val.strV "2021-01"), ("is_late", Val.intV 1),
     ("review_count", Val.intV 35), ("avg_review_score", Val.ratV (17/5))]]⟩

/-- Late-delivery extract: two clean months above the chart threshold. -/
def cLate : Df :=
  ⟨["purchase_month", "delivered_orders", "late_delivered_orders",
    "late_delivery_rate_pct"],
   [[("purchase_month", Val.strV "2021-01"), ("delivered_orders", Val.intV 140),
     ("late_delivered_orders", Val.intV 12), ("late_delivery_rate_pct", Val.intV 9)],
    [("purchase_month", Val.strV "2021-02"), ("delivered_orders", Val.intV 150),
     ("late_delivered_orders", Val.intV 10), ("late_delivery_rate_pct", Val.intV 7)]]⟩

set_option maxRecDepth 100000 in
/-- Counterexample to C8 as stated: on the concrete run the extraction
script's negativity check warns (the warning occurred), the chart run
succeeds with an empty `qa_notes` log, and the occurred warning appears
nowhere in the final report — data-quality warnings of the extraction script
are printed only and are not guaranteed to appear in the report's QA Notes
section. -/
theorem qa_warning_missing_from_report :
    (script01_qa cOrders cRevenue cReview cLate).toOption =
      some ["[QA WARNING] revenue/month: 'revenue' has 1 negative values"] ∧
    ((run_charts cOrders cRevenue cReview cLate).toOption.map
      (fun p => decide
        (("- " ++ "[QA WARNING] revenue/month: 'revenue' has 1 negative values") ∈ p.2.2)))
      = some false ∧
    ((run_charts cOrders cRevenue cReview cLate).toOption.map (fun p => p.1)) = some [] := by
  refine ⟨by decide, ?_, ?_⟩
  · with_unfolding_all decide
  · with_unfolding_all decide

/-- Empty orders extract (header only). -/
def eOrders : Df :=
  ⟨["purchase_month", "total_orders", "delivered_orders", "delivered_rate_pct"], []⟩

/-- Empty revenue extract (header only). -/
def eRev : Df := ⟨["purchase_month", "revenue"], []⟩

/-- Empty late-delivery extract (header only). -/
def eLate : Df :=
  ⟨["purchase_month", "delivered_orders", "late_delivered_orders",
    "late_delivery_rate_pct"], []⟩

/-- The one insight the chart run derives from `cReview`. -/
def cReviewInsight : String :=
  "[INSIGHT] Late deliveries score on average 0.80 points lower than on-time " ++
    "deliveries (range 0.80-0.80, across 1 stable months; min_reviews=30)."

/-- Outcome of the chart run on the empty extracts plus `cReview`. -/
def eRun : List String × List String × List String :=
  ([], [cReviewInsight],
   build_trend_pack_report mainThresholds [] [cReviewInsight])

set_option maxRecDepth 100000 in
/-- Witness for the amended C8: on a concrete successful run with no chart
warnings the QA Notes section renders the placeholder, and a warning string
is listed iff it is in the run's (here empty) log. -/
theorem run_charts_report_qa_notes_witness :
    sectionAfter eRun.2.2 "## QA Notes" = ["- (none)"] ∧
    ((("- " ++ "[QA NOTE] orders chart: dropped 1 sparse month rows (total_orders < 100).")
        ∈ sectionAfter eRun.2.2 "## QA Notes") ↔
      "[QA NOTE] orders chart: dropped 1 sparse month rows (total_orders < 100)" ++ "." ∈
        eRun.1) := by
  have h := run_charts_report_qa_notes eOrders eRev cReview eLate eRun
    (by with_unfolding_all rfl)
  constructor
  · rw [h.1]
    rfl
  · have h2 := h.2
      ("[QA NOTE] orders chart: dropped 1 sparse month rows (total_orders < 100).")
      (by decide)
    simpa using h2

end DataAnalysis
